import Mathlib

/-!
Verification development for the stateful CPU-usage probe of the
check-open-fds repository (src/check_process_cpu_usage.py).

The embedding is shallow: Python floats are modelled as rationals, the
buffer file as an inductive `FileContent`, dynamically typed values loaded
from JSON as `PyVal`, and the `psutil` collaborator at its interface.
-/

namespace CheckCpu

/-! ### Threshold boundaries

A Nagios threshold boundary is either a finite number, negative infinity
(a low boundary written as a tilde) or positive infinity (an unspecified
high boundary). -/

inductive Boundary
  | ninf
  | fin (q : ℚ)
  | pinf
deriving DecidableEq

/-- Comparison `number < boundary`, as Python evaluates it against
float infinities. -/
def Boundary.ltv (n : ℚ) : Boundary → Bool
  | .ninf => false
  | .fin q => decide (n < q)
  | .pinf => true

/-- Comparison `number > boundary`. -/
def Boundary.gtv (n : ℚ) : Boundary → Bool
  | .ninf => true
  | .fin q => decide (q < n)
  | .pinf => false

/-- Comparison `number <= boundary`. -/
def Boundary.lev (n : ℚ) : Boundary → Bool
  | .ninf => false
  | .fin q => decide (n ≤ q)
  | .pinf => true

/-- Comparison `number >= boundary`. -/
def Boundary.gev (n : ℚ) : Boundary → Bool
  | .ninf => true
  | .fin q => decide (q ≤ n)
  | .pinf => false

/-! ### NagiosThreshold.__init__ (lines 94-110)

The constructor applies
`re.match(r"^(?P<is_inclusive>@?)((?P<low_boundary>(\d+(\.\d+)?|~))?:)?(?P<high_boundary>\d+(\.\d+)?)?", raw)`.
Every component of the regular expression is optional, so the match never
fails; the functions below reproduce its greedy prefix semantics on the
character list of `raw`. -/

/-- Numeric value of a list of decimal digit characters. -/
def digitsNat (ds : List Char) : ℕ :=
  ds.foldl (fun a c => 10 * a + (c.toNat - 48)) 0

/-- Maximal leading run of decimal digits, with the remainder. -/
def takeDigits : List Char → List Char × List Char
  | [] => ([], [])
  | c :: cs =>
    if c.isDigit then
      let r := takeDigits cs
      (c :: r.1, r.2)
    else ([], c :: cs)

/-- Value contributed by the fractional digits of a decimal literal. -/
def fracVal (fs : List Char) : ℚ :=
  (digitsNat fs : ℚ) / (10 : ℚ) ^ fs.length

/-- Continuation of `parseNumTok` once the integer digits `ds` have been
taken and `rest` remains: an optional `.digits` fragment extends the
token, with the regex backtracking to the bare integer when no digit
follows the dot. -/
def numTokAux (ds rest : List Char) : Option (ℚ × List Char) :=
  if ds = [] then none
  else
    match rest with
    | [] => some ((digitsNat ds : ℚ), [])
    | c :: rest2 =>
      if c = '.' then
        if (takeDigits rest2).1 = [] then some ((digitsNat ds : ℚ), c :: rest2)
        else some ((digitsNat ds : ℚ) + fracVal (takeDigits rest2).1, (takeDigits rest2).2)
      else some ((digitsNat ds : ℚ), c :: rest2)

/-- Greedy match of the regex fragment `\d+(\.\d+)?` at the head of the
input, returning the value Python's `float` assigns to the matched text
and the unconsumed remainder; `none` when the fragment does not match. -/
def parseNumTok (cs : List Char) : Option (ℚ × List Char) :=
  numTokAux (takeDigits cs).1 (takeDigits cs).2

/-- Fallback for the group `((?P<low_boundary>(\d+(\.\d+)?|~))?:)?` when no
numeric low boundary followed by a colon is present: a tilde-colon gives
negative infinity, a bare colon gives the default low boundary 0, and
otherwise the group matches the empty string (default 0, nothing
consumed). -/
def parseLowNoNum (cs : List Char) : Boundary × List Char :=
  match cs with
  | [] => (.fin 0, [])
  | c :: rest =>
    if c = '~' then
      match rest with
      | [] => (.fin 0, c :: rest)
      | c2 :: rest2 => if c2 = ':' then (.ninf, rest2) else (.fin 0, c :: rest)
    else if c = ':' then (.fin 0, rest)
    else (.fin 0, c :: rest)

/-- Match of the optional low-boundary-colon group.  A shorter numeric
match can never be followed by the colon when the maximal one is not
(every proper prefix of the token ends before a digit or a dot), so
greedy matching with this single check agrees with the regex. -/
def parseLow (cs : List Char) : Boundary × List Char :=
  match parseNumTok cs with
  | some (q, rest) =>
    match rest with
    | [] => parseLowNoNum cs
    | c :: rest2 => if c = ':' then (.fin q, rest2) else parseLowNoNum cs
  | none => parseLowNoNum cs

/-- Match of the optional `@` prefix (the `is_inclusive` group). -/
def stripAt (cs : List Char) : Bool × List Char :=
  match cs with
  | [] => (false, [])
  | c :: rest => if c = '@' then (true, rest) else (false, c :: rest)

/-- Match of the optional high boundary; an unspecified high boundary
defaults to positive infinity. -/
def parseHigh (cs : List Char) : Boundary :=
  match parseNumTok cs with
  | some (q, _) => .fin q
  | none => .pinf

/-- The state of a `NagiosThreshold` object after `__init__`. -/
structure NagiosThreshold where
  inclusive : Bool
  low_boundary : Boundary
  high_boundary : Boundary
deriving DecidableEq

/-- Outcome of applying the threshold regex to the raw text: the three
named groups, converted as `__init__` converts them. -/
def regexParse (cs : List Char) : NagiosThreshold :=
  ⟨(stripAt cs).1, (parseLow (stripAt cs).2).1, parseHigh (parseLow (stripAt cs).2).2⟩

/-- `NagiosThreshold.__init__`: the only failing input is the empty
string (the `assert isinstance(raw, str) and raw` guard); the regex match
itself never fails because all of its components are optional. -/
def nagiosThresholdInit (raw : String) : Option NagiosThreshold :=
  if raw.data = [] then none else some (regexParse raw.data)

/-! ### NagiosThreshold.is_outside_boundaries (lines 112-135) -/

/-- Comparison operator appearing in a violation message. -/
inductive CmpOp
  | lt
  | gt
  | le
  | ge
deriving DecidableEq

/-- Structured content of the string returned by
`is_outside_boundaries`, e.g. `"5<=10"`: the tested number, the
comparison that failed, and the offending boundary. -/
structure Violation where
  value : ℚ
  op : CmpOp
  bound : Boundary
deriving DecidableEq

/-- `is_outside_boundaries`: returns the description of the failed test,
or `none` when the number is inside the boundaries. -/
def is_outside_boundaries (t : NagiosThreshold) (number : ℚ) : Option Violation :=
  if t.inclusive then
    if Boundary.ltv number t.low_boundary then some ⟨number, .lt, t.low_boundary⟩
    else if Boundary.gtv number t.high_boundary then some ⟨number, .gt, t.high_boundary⟩
    else none
  else
    if Boundary.lev number t.low_boundary then some ⟨number, .le, t.low_boundary⟩
    else if Boundary.gev number t.high_boundary then some ⟨number, .ge, t.high_boundary⟩
    else none

/-! ### The four-form threshold grammar

To quantify over all threshold texts of the documented grammar, a numeric
token is a nonempty digit string with an optional nonempty fractional
digit string, and a form is one of `N`, `N:`, `~:N`, `N:M`, optionally
prefixed with an at sign. -/

/-- A decimal-literal token of the grammar (`\d+(\.\d+)?`). -/
structure NumTok where
  intPart : List Char
  fracPart : Option (List Char)

/-- Well-formedness of a token: a nonempty integer digit part and, when
present, a nonempty fractional digit part. -/
def NumTok.valid (n : NumTok) : Bool :=
  decide (n.intPart ≠ []) && n.intPart.all Char.isDigit &&
    (match n.fracPart with
     | none => true
     | some fs => decide (fs ≠ []) && fs.all Char.isDigit)

/-- The text of a token. -/
def NumTok.chars (n : NumTok) : List Char :=
  n.intPart ++ (match n.fracPart with
  | none => []
  | some fs => '.' :: fs)

/-- The numeric value Python's `float` assigns to the token text. -/
def NumTok.val (n : NumTok) : ℚ :=
  match n.fracPart with
  | none => (digitsNat n.intPart : ℚ)
  | some fs => (digitsNat n.intPart : ℚ) + fracVal fs

/-- The four grammar forms of a threshold text. -/
inductive ThreshForm
  | justN (n : NumTok)
  | lowOnly (n : NumTok)
  | tildeHigh (n : NumTok)
  | lowHigh (n m : NumTok)

/-- Well-formedness of a form: all of its tokens are valid. -/
def ThreshForm.valid : ThreshForm → Bool
  | .justN n => n.valid
  | .lowOnly n => n.valid
  | .tildeHigh n => n.valid
  | .lowHigh n m => n.valid && m.valid

/-- The text of a form. -/
def ThreshForm.chars : ThreshForm → List Char
  | .justN n => n.chars
  | .lowOnly n => n.chars ++ [':']
  | .tildeHigh n => '~' :: ':' :: n.chars
  | .lowHigh n m => n.chars ++ ':' :: m.chars

/-- The low boundary the spec assigns to a form: unspecified means 0 and
a tilde means negative infinity. -/
def ThreshForm.lowBound : ThreshForm → Boundary
  | .justN _ => .fin 0
  | .lowOnly n => .fin n.val
  | .tildeHigh _ => .ninf
  | .lowHigh n _ => .fin n.val

/-- The high boundary the spec assigns to a form: unspecified means
positive infinity. -/
def ThreshForm.highBound : ThreshForm → Boundary
  | .justN n => .fin n.val
  | .lowOnly _ => .pinf
  | .tildeHigh n => .fin n.val
  | .lowHigh _ m => .fin m.val

/-- The threshold text of a form, with an optional inclusive prefix. -/
def renderThresh (a : Bool) (f : ThreshForm) : String :=
  ⟨(if a then ['@'] else []) ++ f.chars⟩

/-- Is the head of the remainder unable to be a digit continuation? -/
def headNotDigit : List Char → Bool
  | [] => true
  | c :: _ => !c.isDigit

/-- Is the remainder unable to extend a preceding numeric token (its head
is neither a digit nor a dot)? -/
def noTokExtend : List Char → Bool
  | [] => true
  | c :: _ => !c.isDigit && !(decide (c = '.'))

/-- The token `10` used in concrete instances. -/
def tok10 : NumTok := ⟨['1', '0'], none⟩

/-- The token `20` used in concrete instances. -/
def tok20 : NumTok := ⟨['2', '0'], none⟩

/-- The form `10:20` used in concrete instances. -/
def form1020 : ThreshForm := .lowHigh tok10 tok20

/-! ### CpuTimesNamedTuple and its persistence (lines 148-204)

`save_to_disk` writes `json.dump(self._asdict())`; `load_from_disk` runs
`json.load` and `cls(**data)`.  The buffer file is modelled by
`FileContent`; dynamically typed values coming back from JSON are
modelled by `PyVal` (a Python `NamedTuple` does not validate field types
at runtime, so loaded fields can hold any JSON value). -/

/-- A dynamically typed Python value as produced by `json.load`. -/
inductive PyVal
  | int (n : ℤ)
  | float (q : ℚ)
  | str (s : String)
  | bool (b : Bool)
  | null
deriving DecidableEq

/-- The typed `CpuTimesNamedTuple` as the program itself constructs it
(lines 170-176): pid plus timestamp and the five cumulative counters. -/
structure CpuTimesNamedTuple where
  pid : ℤ
  timestamp : ℚ
  user : ℚ
  system : ℚ
  children_user : ℚ
  children_system : ℚ
  iowait : ℚ
deriving DecidableEq

/-- A `CpuTimesNamedTuple` as reconstructed by `cls(**data)` from a JSON
object: the seven fields, each holding whatever value the file had. -/
structure PyCpuTuple where
  pid : PyVal
  timestamp : PyVal
  user : PyVal
  system : PyVal
  children_user : PyVal
  children_system : PyVal
  iowait : PyVal
deriving DecidableEq

/-- `self._asdict()` followed by `json.dump`: the serialized field map. -/
def CpuTimesNamedTuple.asdict (t : CpuTimesNamedTuple) : List (String × PyVal) :=
  [("pid", .int t.pid), ("timestamp", .float t.timestamp), ("user", .float t.user),
   ("system", .float t.system), ("children_user", .float t.children_user),
   ("children_system", .float t.children_system), ("iowait", .float t.iowait)]

/-- The loaded image of a typed tuple: ints stay ints and floats stay
floats across a JSON round trip. -/
def CpuTimesNamedTuple.toPy (t : CpuTimesNamedTuple) : PyCpuTuple :=
  ⟨.int t.pid, .float t.timestamp, .float t.user, .float t.system,
   .float t.children_user, .float t.children_system, .float t.iowait⟩

/-- State of the buffer file as seen by `load_from_disk`, covering the
distinguishable ways the Python calls can fail: no file
(`FileNotFoundError` from `open`), an I/O error unrelated to content
(e.g. `PermissionError`), content that `json.load` rejects, valid JSON
that is not an object (`cls(**data)` raises `TypeError`), and a JSON
object carrying arbitrary key/value pairs. -/
inductive FileContent
  | missing
  | ioError
  | notJson
  | jsonNonObj
  | jsonObj (fields : List (String × PyVal))
deriving DecidableEq

/-- `save_to_disk`: overwrites the slot with the serialized record. -/
def save_to_disk (t : CpuTimesNamedTuple) : FileContent :=
  .jsonObj t.asdict

/-- Result of the `load_from_disk` call as discriminated by the caller's
two `except` clauses: `FileNotFoundError`, any other exception, or a
successfully reconstructed tuple. -/
inductive LoadResult
  | fileNotFound
  | otherError
  | ok (t : PyCpuTuple)
deriving DecidableEq

/-- `cls(**data)`: keyword construction succeeds exactly when the dict
holds the seven field names and nothing else; values are not
type-checked. -/
def mkFromKwargs (fs : List (String × PyVal)) : Option PyCpuTuple :=
  match fs.lookup "pid", fs.lookup "timestamp", fs.lookup "user", fs.lookup "system",
        fs.lookup "children_user", fs.lookup "children_system", fs.lookup "iowait" with
  | some a, some b, some c, some d, some e, some f, some g =>
    if fs.length = 7 then some ⟨a, b, c, d, e, f, g⟩ else none
  | _, _, _, _, _, _, _ => none

/-- `load_from_disk` as observed through the caller's `try/except`:
only a missing file surfaces as `FileNotFoundError`; every other failure
(I/O error, bad JSON, wrong shape) is some other exception. -/
def load_from_disk : FileContent → LoadResult
  | .missing => .fileNotFound
  | .ioError => .otherError
  | .notJson => .otherError
  | .jsonNonObj => .otherError
  | .jsonObj fs =>
    match mkFromKwargs fs with
    | some t => .ok t
    | none => .otherError

/-! ### get_pid_cpu_percent (lines 256-317) -/

/-- Numeric coercion used by Python arithmetic and comparisons: ints and
floats are numbers, a bool is 0 or 1, strings and `None` are not
numeric. -/
def pyToRat : PyVal → Option ℚ
  | .int n => some (n : ℚ)
  | .float q => some q
  | .bool b => some (if b then 1 else 0)
  | .str _ => none
  | .null => none

/-- Python `previous.pid != pid` for an `int` pid: numeric values compare
by value (so `7.0 == 7` and `True == 1`), anything non-numeric is
unequal. -/
def pyNeInt (v : PyVal) (pid : ℤ) : Bool :=
  match pyToRat v with
  | some q => decide (q ≠ (pid : ℚ))
  | none => true

/-- The counters `psutil` reads for the process right now (the
`pcputimes` named tuple of the collaborator). -/
structure Pcputimes where
  user : ℚ
  system : ℚ
  children_user : ℚ
  children_system : ℚ
  iowait : ℚ
deriving DecidableEq

/-- The `pcputimes` baseline rebuilt from the loaded record
(lines 291-293).  Field values are the dynamically typed loaded ones.
The source passes `children_system=previous.children_user`, so the
baseline's `children_system` slot receives the previous record's
`children_user` value. -/
structure PyPcputimes where
  user : PyVal
  system : PyVal
  children_user : PyVal
  children_system : PyVal
  iowait : PyVal
deriving DecidableEq

/-- Lines 291-293: the baseline handed to the collaborator, built from
the loaded record. -/
def seedPcpu (p : PyCpuTuple) : PyPcputimes :=
  ⟨p.user, p.system, p.children_user, p.children_user, p.iowait⟩

/-- Modelled from the spec: `psutil.Process.cpu_percent` is an external
collaborator (spec §1, §4.3, §6), not code of this repository.  With no
stored baseline it records the current counters and returns `0.0`;
with a baseline it returns `100 * (Δuser + Δsystem) / Δtimestamp`
(iowait excluded), `0.0` when the timestamp delta is zero, in the
collaborator's own multi-core scaling and rounding convention (the
timestamp already carries the CPU-count factor).  Because the seeded
baseline fields come from JSON they are dynamically typed; arithmetic on
a non-numeric field raises `TypeError`, modelled as `.error`. -/
def cpu_percent (baseline : Option (PyVal × PyPcputimes)) (st2 : ℚ) (pt2 : Pcputimes) :
    Except Unit ℚ :=
  match baseline with
  | none => .ok 0
  | some (st1, pt1) =>
    match pyToRat pt1.user, pyToRat pt1.system, pyToRat st1 with
    | some u1, some s1, some t1 =>
      .ok (if st2 - t1 = 0 then 0 else 100 * ((pt2.user - u1) + (pt2.system - s1)) / (st2 - t1))
    | _, _, _ => .error ()

/-- Outcome of one `get_pid_cpu_percent` invocation: the returned value,
one of the three `RuntimeError`s raised after persisting, the
`AssertionError` for a dead process, or an exception escaping from the
collaborator call itself (before the save). -/
inductive SampleResult
  | ok (percent : ℚ)
  | notRunningError
  | firstRunError
  | corruptError
  | pidChangedError
  | collaboratorError
deriving DecidableEq

/-- Result of an invocation paired with the buffer file it leaves
behind. -/
structure SampleOutput where
  result : SampleResult
  file : FileContent
deriving DecidableEq

/-- Lines 298-306: the fresh record parsed back out of the collaborator
state after `cpu_percent` (which always stores the current timestamp and
counters there). -/
def freshSample (pid : ℤ) (st2 : ℚ) (pt2 : Pcputimes) : CpuTimesNamedTuple :=
  ⟨pid, st2, pt2.user, pt2.system, pt2.children_user, pt2.children_system, pt2.iowait⟩

/-- `get_pid_cpu_percent`: load the previous record (recording which of
missing / corrupt / pid-changed occurred), seed the baseline only when
the load succeeded with a matching pid, call the collaborator, persist
the freshly observed counters, then raise per degraded condition in the
source's order (missing, then corrupt, then pid-changed), else return
the percentage.  If the collaborator call itself raises, the save never
runs and the file is left as it was. -/
def get_pid_cpu_percent (pid : ℤ) (isRunning : Bool) (file : FileContent)
    (st2 : ℚ) (pt2 : Pcputimes) : SampleOutput :=
  if isRunning then
    let load := load_from_disk file
    let baseline : Option (PyVal × PyPcputimes) :=
      match load with
      | .ok previous =>
        if pyNeInt previous.pid pid then none
        else some (previous.timestamp, seedPcpu previous)
      | _ => none
    match cpu_percent baseline st2 pt2 with
    | .error _ => ⟨.collaboratorError, file⟩
    | .ok cpuPct =>
      let newFile := save_to_disk (freshSample pid st2 pt2)
      match load with
      | .fileNotFound => ⟨.firstRunError, newFile⟩
      | .otherError => ⟨.corruptError, newFile⟩
      | .ok previous =>
        if pyNeInt previous.pid pid then ⟨.pidChangedError, newFile⟩
        else ⟨.ok cpuPct, newFile⟩
  else ⟨.notRunningError, file⟩

/-! ### Classification and the __main__ block (lines 320-367) -/

/-- Outcome of the threshold comparison block (lines 347-364): CRITICAL
and WARNING carry the violation description of the range that fired; OK
carries the value and the warning threshold whose boundaries and
inclusiveness the OK message renders. -/
inductive ClassifyResult
  | critical (v : Violation)
  | warning (v : Violation)
  | okRes (value : ℚ) (warnThresh : NagiosThreshold)
deriving DecidableEq

/-- Lines 347-364: the critical range is checked first and dominates. -/
def classify (cpu : ℚ) (w c : NagiosThreshold) : ClassifyResult :=
  match is_outside_boundaries c cpu with
  | some v => .critical v
  | none =>
    match is_outside_boundaries w cpu with
    | some v => .warning v
    | none => .okRes cpu w

/-- The exit code chosen for each classification. -/
def exitCode : ClassifyResult → ℕ
  | .critical _ => 2
  | .warning _ => 1
  | .okRes _ _ => 0

/-- How one whole run terminates: a classified status line with its exit
code, the UNKNOWN status line with exit code 3, or an exception escaping
to the interpreter (raw traceback, no status line, interpreter exit). -/
inductive RunOutcome
  | status (r : ClassifyResult)
  | unknownExit
  | uncaught
deriving DecidableEq

/-- The `__main__` block.  `argErr` abstracts an argument-parsing error
(`NagiosArgumentParser.error` prints UNKNOWN and exits 3);
`pidResolve` abstracts the body of `get_pid_from_command` (an external
subprocess call), whose failures the `tb2unknown` decorator turns into
UNKNOWN/exit 3, or re-raises when the debug flag is set.  The same
decorator wraps `get_pid_cpu_percent`.  The two `NagiosThreshold`
constructions at lines 329-330 are not wrapped by any decorator: a
failure there escapes raw whatever the debug flag. -/
def main_model (argErr debug : Bool) (pidResolve : Except String ℤ)
    (isRunning : Bool) (file : FileContent) (st2 : ℚ) (pt2 : Pcputimes)
    (warningRaw criticalRaw : String) : RunOutcome :=
  if argErr then .unknownExit
  else
    match pidResolve with
    | .error _ => if debug then .uncaught else .unknownExit
    | .ok pid =>
      match (get_pid_cpu_percent pid isRunning file st2 pt2).result with
      | .ok cpu =>
        match nagiosThresholdInit warningRaw, nagiosThresholdInit criticalRaw with
        | some w, some c => .status (classify cpu w c)
        | _, _ => .uncaught
      | _ => if debug then .uncaught else .unknownExit

/-- A stored record whose seven fields are all present but whose pid is
the string `"7"` instead of the integer 7. -/
def pidStrFields : List (String × PyVal) :=
  [("pid", .str "7"), ("timestamp", .float 0), ("user", .float 0), ("system", .float 0),
   ("children_user", .float 0), ("children_system", .float 0), ("iowait", .float 0)]

/-- A stored record whose seven fields are all present but whose user
counter is the string `"x"` instead of a number. -/
def userStrFields : List (String × PyVal) :=
  [("pid", .int 7), ("timestamp", .float 0), ("user", .str "x"), ("system", .float 0),
   ("children_user", .float 0), ("children_system", .float 0), ("iowait", .float 0)]

/-- A stored record missing the pid field. -/
def missingFieldRec : List (String × PyVal) :=
  [("timestamp", .float 0), ("user", .float 0), ("system", .float 0),
   ("children_user", .float 0), ("children_system", .float 0), ("iowait", .float 0)]

/-- A stored record with all seven fields plus an unexpected extra one. -/
def extraFieldRec : List (String × PyVal) :=
  [("pid", .int 7), ("timestamp", .float 0), ("user", .float 0), ("system", .float 0),
   ("children_user", .float 0), ("children_system", .float 0), ("iowait", .float 0),
   ("extra", .float 0)]

/-! ### Parser lemmas for the grammar forms -/

theorem takeDigits_append (ds rest : List Char)
    (hds : ds.all Char.isDigit = true) (hrest : headNotDigit rest = true) :
    takeDigits (ds ++ rest) = (ds, rest) := by
  induction ds with
  | nil =>
    cases rest with
    | nil => rfl
    | cons c cs =>
      simp only [headNotDigit, Bool.not_eq_true'] at hrest
      simp [takeDigits, hrest]
  | cons c ds ih =>
    simp only [List.all_cons, Bool.and_eq_true] at hds
    simp [takeDigits, hds.1, ih hds.2]

theorem parseNumTok_no_digit (cs : List Char) (h : headNotDigit cs = true) :
    parseNumTok cs = none := by
  cases cs with
  | nil => rfl
  | cons c t =>
    simp only [headNotDigit, Bool.not_eq_true'] at h
    simp [parseNumTok, takeDigits, h, numTokAux]

theorem noTokExtend_headNotDigit (rest : List Char) (hr : noTokExtend rest = true) :
    headNotDigit rest = true := by
  cases rest with
  | nil => rfl
  | cons c t =>
    simp only [noTokExtend, Bool.and_eq_true] at hr
    simpa [headNotDigit] using hr.1

theorem parseNumTok_chars (n : NumTok) (rest : List Char)
    (hn : n.valid = true) (hr : noTokExtend rest = true) :
    parseNumTok (n.chars ++ rest) = some (n.val, rest) := by
  obtain ⟨i, o⟩ := n
  have hhead := noTokExtend_headNotDigit rest hr
  cases o with
  | none =>
    simp only [NumTok.valid, Bool.and_eq_true, decide_eq_true_eq] at hn
    obtain ⟨⟨hne, hdig⟩, -⟩ := hn
    have htd : takeDigits (i ++ rest) = (i, rest) := takeDigits_append i rest hdig hhead
    simp only [NumTok.chars, NumTok.val, List.append_nil]
    simp only [parseNumTok, htd]
    cases rest with
    | nil => simp [numTokAux, hne]
    | cons c t =>
      simp only [noTokExtend, Bool.and_eq_true, Bool.not_eq_true'] at hr
      have hcdot : ¬(c = '.') := of_decide_eq_false hr.2
      simp [numTokAux, hne, hcdot]
  | some fs =>
    simp only [NumTok.valid, Bool.and_eq_true, decide_eq_true_eq] at hn
    obtain ⟨⟨hne, hdig⟩, hfne, hfdig⟩ := hn
    have hdot : headNotDigit ('.' :: (fs ++ rest)) = true := by
      show (Bool.not ('.'.isDigit)) = true
      decide
    have htd1 : takeDigits (i ++ '.' :: (fs ++ rest)) = (i, '.' :: (fs ++ rest)) :=
      takeDigits_append i _ hdig hdot
    have htd2 : takeDigits (fs ++ rest) = (fs, rest) := takeDigits_append fs rest hfdig hhead
    have hch : NumTok.chars ⟨i, some fs⟩ ++ rest = i ++ '.' :: (fs ++ rest) := by
      simp [NumTok.chars]
    rw [hch]
    simp only [parseNumTok, htd1]
    simp [numTokAux, hne, htd2, hfne, NumTok.val]

theorem NumTok.chars_head (n : NumTok) (hn : n.valid = true) :
    ∃ c t, n.chars = c :: t ∧ c.isDigit = true := by
  obtain ⟨i, o⟩ := n
  simp only [NumTok.valid, Bool.and_eq_true, decide_eq_true_eq] at hn
  obtain ⟨⟨hne, hdig⟩, -⟩ := hn
  cases i with
  | nil => exact absurd rfl hne
  | cons c t =>
    simp only [List.all_cons, Bool.and_eq_true] at hdig
    refine ⟨c, t ++ (match o with | none => [] | some fs => '.' :: fs), ?_, hdig.1⟩
    simp [NumTok.chars]

theorem parseLow_justN (n : NumTok) (hn : n.valid = true) :
    parseLow n.chars = (.fin 0, n.chars) := by
  have hp : parseNumTok (n.chars ++ []) = some (n.val, []) := parseNumTok_chars n [] hn rfl
  rw [List.append_nil] at hp
  obtain ⟨c, t, hct, hcd⟩ := n.chars_head hn
  have hc1 : ¬(c = '~') := fun e => by subst e; exact absurd hcd (by decide)
  have hc2 : ¬(c = ':') := fun e => by subst e; exact absurd hcd (by decide)
  rw [hct] at hp ⊢
  simp [parseLow, hp, parseLowNoNum, hc1, hc2]

theorem parseLow_lowOnly (n : NumTok) (hn : n.valid = true) :
    parseLow (n.chars ++ [':']) = (.fin n.val, []) := by
  have hp := parseNumTok_chars n [':'] hn (by decide)
  simp [parseLow, hp]

theorem parseLow_tildeHigh (cs : List Char) :
    parseLow ('~' :: ':' :: cs) = (.ninf, cs) := by
  have hp : parseNumTok ('~' :: ':' :: cs) = none := by
    apply parseNumTok_no_digit
    show (Bool.not ('~'.isDigit)) = true
    decide
  simp [parseLow, hp, parseLowNoNum]

theorem parseLow_lowHigh (n m : NumTok) (hn : n.valid = true) :
    parseLow (n.chars ++ ':' :: m.chars) = (.fin n.val, m.chars) := by
  have hr : noTokExtend (':' :: m.chars) = true := by
    show (Bool.not (':'.isDigit) && Bool.not (decide (':' = '.'))) = true
    decide
  have hp := parseNumTok_chars n (':' :: m.chars) hn hr
  simp [parseLow, hp]

theorem parseHigh_tok (n : NumTok) (hn : n.valid = true) :
    parseHigh n.chars = .fin n.val := by
  have hp : parseNumTok (n.chars ++ []) = some (n.val, []) := parseNumTok_chars n [] hn rfl
  rw [List.append_nil] at hp
  simp [parseHigh, hp]

theorem stripAt_render (a : Bool) (cs : List Char) (h : ∀ c t, cs = c :: t → ¬(c = '@')) :
    stripAt ((if a then ['@'] else []) ++ cs) = (a, cs) := by
  cases a with
  | true => simp [stripAt]
  | false =>
    simp only [if_neg, List.nil_append, Bool.false_eq_true]
    cases cs with
    | nil => rfl
    | cons c t => simp [stripAt, h c t rfl]

theorem formChars_head_ne_at (f : ThreshForm) (hf : f.valid = true) :
    ∀ c t, f.chars = c :: t → ¬(c = '@') := by
  have hdig : ∀ (n : NumTok), n.valid = true →
      ∀ c t rest, n.chars ++ rest = c :: t → ¬(c = '@') := by
    intro n hn c t rest hct e
    obtain ⟨c2, t2, hc2, hd2⟩ := n.chars_head hn
    rw [hc2] at hct
    simp only [List.cons_append, List.cons.injEq] at hct
    subst e
    rw [hct.1] at hd2
    exact absurd hd2 (by decide)
  cases f with
  | justN n =>
    intro c t hct
    exact hdig n hf c t [] (by simpa using hct)
  | lowOnly n =>
    intro c t hct
    exact hdig n hf c t [':'] hct
  | tildeHigh n =>
    intro c t hct e
    simp only [ThreshForm.chars, List.cons.injEq] at hct
    rw [← hct.1] at e
    exact absurd e (by decide)
  | lowHigh n m =>
    intro c t hct
    simp only [ThreshForm.valid, Bool.and_eq_true] at hf
    exact hdig n hf.1 c t (':' :: m.chars) hct

theorem formChars_ne_nil (f : ThreshForm) (hf : f.valid = true) : f.chars ≠ [] := by
  cases f with
  | justN n =>
    obtain ⟨c, t, hct, -⟩ := n.chars_head hf
    simp [ThreshForm.chars, hct]
  | lowOnly n =>
    obtain ⟨c, t, hct, -⟩ := n.chars_head hf
    simp [ThreshForm.chars, hct]
  | tildeHigh n => simp [ThreshForm.chars]
  | lowHigh n m =>
    simp only [ThreshForm.valid, Bool.and_eq_true] at hf
    obtain ⟨c, t, hct, -⟩ := n.chars_head hf.1
    simp [ThreshForm.chars, hct]

theorem regexParse_render (a : Bool) (f : ThreshForm) (hf : f.valid = true) :
    regexParse ((if a then ['@'] else []) ++ f.chars) = ⟨a, f.lowBound, f.highBound⟩ := by
  have hat : stripAt ((if a then ['@'] else []) ++ f.chars) = (a, f.chars) :=
    stripAt_render a f.chars (formChars_head_ne_at f hf)
  simp only [ThreshForm.chars] at hat
  have hhigh : parseHigh [] = .pinf := rfl
  cases f with
  | justN n =>
    have h1 := parseLow_justN n hf
    have h2 := parseHigh_tok n hf
    simp [regexParse, hat, ThreshForm.chars, ThreshForm.lowBound, ThreshForm.highBound, h1, h2]
  | lowOnly n =>
    have h1 := parseLow_lowOnly n hf
    simp [regexParse, hat, ThreshForm.chars, ThreshForm.lowBound, ThreshForm.highBound, h1,
      hhigh]
  | tildeHigh n =>
    have h1 := parseLow_tildeHigh n.chars
    have h2 := parseHigh_tok n hf
    simp [regexParse, hat, ThreshForm.chars, ThreshForm.lowBound, ThreshForm.highBound, h1, h2]
  | lowHigh n m =>
    simp only [ThreshForm.valid, Bool.and_eq_true] at hf
    have h1 := parseLow_lowHigh n m hf.1
    have h2 := parseHigh_tok m hf.2
    simp [regexParse, hat, ThreshForm.chars, ThreshForm.lowBound, ThreshForm.highBound, h1, h2]

theorem nagiosThresholdInit_render (a : Bool) (f : ThreshForm) (hf : f.valid = true) :
    nagiosThresholdInit (renderThresh a f) = some ⟨a, f.lowBound, f.highBound⟩ := by
  have hne : (if a then ['@'] else []) ++ f.chars ≠ [] := by
    intro h
    exact formChars_ne_nil f hf (List.append_eq_nil.mp h).2
  simp only [nagiosThresholdInit, renderThresh]
  rw [if_neg hne]
  rw [regexParse_render a f hf]

theorem nagiosThresholdInit_concrete :
    nagiosThresholdInit "@10:20" = some ⟨true, .fin 10, .fin 20⟩ ∧
    nagiosThresholdInit "~:10" = some ⟨false, .ninf, .fin 10⟩ ∧
    nagiosThresholdInit "10:" = some ⟨false, .fin 10, .pinf⟩ ∧
    nagiosThresholdInit "10" = some ⟨false, .fin 0, .fin 10⟩ ∧
    nagiosThresholdInit "~5:" = some ⟨false, .fin 0, .pinf⟩ ∧
    nagiosThresholdInit ":" = some ⟨false, .fin 0, .pinf⟩ := by
  refine ⟨by decide, by decide, by decide, by decide, by decide, by decide⟩

/-! ### Persistence and sampler lemmas -/

theorem load_from_disk_save (t : CpuTimesNamedTuple) :
    load_from_disk (save_to_disk t) = .ok t.toPy := rfl

theorem get_pid_on_saved (pid : ℤ) (t1 u1 s1 cu1 cs1 io1 : ℚ) (st2 : ℚ) (pt2 : Pcputimes) :
    get_pid_cpu_percent pid true (save_to_disk ⟨pid, t1, u1, s1, cu1, cs1, io1⟩) st2 pt2 =
      ⟨.ok (if st2 - t1 = 0 then 0 else 100 * ((pt2.user - u1) + (pt2.system - s1)) / (st2 - t1)),
       save_to_disk (freshSample pid st2 pt2)⟩ := by
  have hl : load_from_disk (save_to_disk ⟨pid, t1, u1, s1, cu1, cs1, io1⟩) =
      .ok (CpuTimesNamedTuple.toPy ⟨pid, t1, u1, s1, cu1, cs1, io1⟩) := load_from_disk_save _
  have hp : pyNeInt (.int pid) pid = false := by
    simp [pyNeInt, pyToRat]
  simp [get_pid_cpu_percent, hl, hp, cpu_percent, seedPcpu, CpuTimesNamedTuple.toPy, pyToRat]

/-! ### The claims -/

/-- C2: for every threshold text of the four grammar forms (`N`, `N:`,
`~:N`, `N:M`, optionally prefixed with an at sign), parsing succeeds with
the documented boundaries (unspecified low is 0, a tilde low is negative
infinity, unspecified high is positive infinity, the at-prefix makes the
threshold inclusive), and evaluating a value returns a violation exactly
when the value is strictly outside the boundaries (inclusive case,
described with strict comparisons) or non-strictly outside them
(non-inclusive case, described with non-strict comparisons). -/
theorem C2_threshold_grammar (a : Bool) (f : ThreshForm) (hf : f.valid = true) (v : ℚ) :
    ∃ t, nagiosThresholdInit (renderThresh a f) = some t ∧
      t.inclusive = a ∧ t.low_boundary = f.lowBound ∧ t.high_boundary = f.highBound ∧
      (a = true → is_outside_boundaries t v =
        (if Boundary.ltv v f.lowBound then some ⟨v, .lt, f.lowBound⟩
         else if Boundary.gtv v f.highBound then some ⟨v, .gt, f.highBound⟩
         else none)) ∧
      (a = false → is_outside_boundaries t v =
        (if Boundary.lev v f.lowBound then some ⟨v, .le, f.lowBound⟩
         else if Boundary.gev v f.highBound then some ⟨v, .ge, f.highBound⟩
         else none)) := by
  refine ⟨⟨a, f.lowBound, f.highBound⟩, nagiosThresholdInit_render a f hf, rfl, rfl, rfl, ?_, ?_⟩
  · intro ha; subst ha; rfl
  · intro ha; subst ha; rfl

/-- C2 witness: the inclusive form `@10:20` parses to the closed range
10 to 20 and the boundary value 10 does not violate it. -/
theorem C2_threshold_grammar_witness :
    ∃ t, nagiosThresholdInit (renderThresh true form1020) = some t ∧
      t.inclusive = true ∧ t.low_boundary = form1020.lowBound ∧
      t.high_boundary = form1020.highBound ∧
      (true = true → is_outside_boundaries t 10 =
        (if Boundary.ltv 10 form1020.lowBound then some ⟨10, .lt, form1020.lowBound⟩
         else if Boundary.gtv 10 form1020.highBound then some ⟨10, .gt, form1020.highBound⟩
         else none)) ∧
      (true = false → is_outside_boundaries t 10 =
        (if Boundary.lev 10 form1020.lowBound then some ⟨10, .le, form1020.lowBound⟩
         else if Boundary.gev 10 form1020.highBound then some ⟨10, .ge, form1020.highBound⟩
         else none)) :=
  C2_threshold_grammar true form1020 (by decide) 10

/-- C4: the claim states that every text outside the four-form grammar is
rejected at construction time.  In the code the only rejected text is the
empty string: the regex is made entirely of optional components, so
`re.match` succeeds on any text and `NagiosThreshold("abc")` silently
succeeds with the default boundaries (low 0, high positive infinity,
non-inclusive), contradicting the claim. -/
theorem C4_malformed_text_accepted :
    nagiosThresholdInit "abc" = some ⟨false, .fin 0, .pinf⟩ ∧
    nagiosThresholdInit "" = none :=
  ⟨by decide, by decide⟩

/-- C8: saving a CpuSample and loading it back returns a record equal to
the original in all seven fields. -/
theorem C8_round_trip (t : CpuTimesNamedTuple) :
    ∃ p, load_from_disk (save_to_disk t) = .ok p ∧
      p.pid = .int t.pid ∧ p.timestamp = .float t.timestamp ∧ p.user = .float t.user ∧
      p.system = .float t.system ∧ p.children_user = .float t.children_user ∧
      p.children_system = .float t.children_system ∧ p.iowait = .float t.iowait :=
  ⟨t.toPy, load_from_disk_save t, rfl, rfl, rfl, rfl, rfl, rfl, rfl⟩

/-- C1: whenever the target process exists and the collaborator counter
read succeeds, the freshly observed counters are persisted as the new
CpuSample for the requested pid before any degraded-condition error is
raised; in particular the slot then loads back as a well-formed record
whose pid field is the requested identity. -/
theorem C1_persist_before_raise (pid : ℤ) (file : FileContent) (st2 : ℚ) (pt2 : Pcputimes)
    (h : (get_pid_cpu_percent pid true file st2 pt2).result ≠ .collaboratorError) :
    (get_pid_cpu_percent pid true file st2 pt2).file = save_to_disk (freshSample pid st2 pt2) ∧
    load_from_disk (get_pid_cpu_percent pid true file st2 pt2).file =
      .ok (freshSample pid st2 pt2).toPy ∧
    (freshSample pid st2 pt2).toPy.pid = .int pid := by
  have hfile : (get_pid_cpu_percent pid true file st2 pt2).file =
      save_to_disk (freshSample pid st2 pt2) := by
    cases hl : load_from_disk file with
    | fileNotFound => simp [get_pid_cpu_percent, hl, cpu_percent]
    | otherError => simp [get_pid_cpu_percent, hl, cpu_percent]
    | ok previous =>
      by_cases hp : pyNeInt previous.pid pid = true
      · simp [get_pid_cpu_percent, hl, hp, cpu_percent]
      · cases hcp : cpu_percent (some (previous.timestamp, seedPcpu previous)) st2 pt2 with
        | error e =>
          exfalso
          apply h
          simp [get_pid_cpu_percent, hl, hp, hcp]
        | ok q => simp [get_pid_cpu_percent, hl, hp, hcp]
  exact ⟨hfile, by rw [hfile]; exact load_from_disk_save _, rfl⟩

/-- C1 witness: a first run against a missing buffer file persists the
fresh sample for pid 1 even though the invocation raises the first-run
error. -/
theorem C1_persist_witness :
    (get_pid_cpu_percent 1 true .missing 5 ⟨1, 2, 3, 4, 5⟩).file =
      save_to_disk (freshSample 1 5 ⟨1, 2, 3, 4, 5⟩) ∧
    load_from_disk (get_pid_cpu_percent 1 true .missing 5 ⟨1, 2, 3, 4, 5⟩).file =
      .ok (freshSample 1 5 ⟨1, 2, 3, 4, 5⟩).toPy ∧
    (freshSample 1 5 ⟨1, 2, 3, 4, 5⟩).toPy.pid = .int 1 :=
  C1_persist_before_raise 1 .missing 5 ⟨1, 2, 3, 4, 5⟩ (by decide)

/-- C3: with the process running, the three degraded load outcomes stay
distinct: the first-run error is raised exactly when the load reported a
missing file, the corrupt-state error exactly when it reported any other
load failure, the pid-changed error exactly when a record loaded whose
pid does not match, and a percentage is only returned after a successful
identity-matching load. -/
theorem C3_distinct_outcomes (pid : ℤ) (file : FileContent) (st2 : ℚ) (pt2 : Pcputimes) :
    ((get_pid_cpu_percent pid true file st2 pt2).result = .firstRunError ↔
      load_from_disk file = .fileNotFound) ∧
    ((get_pid_cpu_percent pid true file st2 pt2).result = .corruptError ↔
      load_from_disk file = .otherError) ∧
    ((get_pid_cpu_percent pid true file st2 pt2).result = .pidChangedError ↔
      ∃ p, load_from_disk file = .ok p ∧ pyNeInt p.pid pid = true) ∧
    (∀ q, (get_pid_cpu_percent pid true file st2 pt2).result = .ok q →
      ∃ p, load_from_disk file = .ok p ∧ pyNeInt p.pid pid = false) := by
  cases hl : load_from_disk file with
  | fileNotFound => simp [get_pid_cpu_percent, hl, cpu_percent]
  | otherError => simp [get_pid_cpu_percent, hl, cpu_percent]
  | ok previous =>
    by_cases hp : pyNeInt previous.pid pid = true
    · simp [get_pid_cpu_percent, hl, hp, cpu_percent]
    · have hp' : pyNeInt previous.pid pid = false := by
        rwa [Bool.not_eq_true] at hp
      cases hcp : cpu_percent (some (previous.timestamp, seedPcpu previous)) st2 pt2 with
      | error e => simp [get_pid_cpu_percent, hl, hp', hcp]
      | ok q => simp [get_pid_cpu_percent, hl, hp', hcp]

/-- C9: when a valid baseline was seeded from a previous sample of the
same identity, the returned percentage is
`100 * ((user_now - user_prev) + (system_now - system_prev)) / (timestamp_now - timestamp_prev)`
in the collaborator's timestamp units, with iowait excluded from the
numerator. -/
theorem C9_delta_formula (pid : ℤ) (t1 u1 s1 cu1 cs1 io1 : ℚ) (st2 : ℚ) (pt2 : Pcputimes)
    (h : ¬(st2 - t1 = 0)) :
    (get_pid_cpu_percent pid true (save_to_disk ⟨pid, t1, u1, s1, cu1, cs1, io1⟩) st2 pt2).result =
      .ok (100 * ((pt2.user - u1) + (pt2.system - s1)) / (st2 - t1)) := by
  rw [get_pid_on_saved]
  simp [if_neg h]

/-- C9 witness: user delta 4 and system delta 1 over a timestamp delta of
10 yield 50 percent, with the iowait delta (2) excluded. -/
theorem C9_delta_witness :
    (get_pid_cpu_percent 1 true (save_to_disk ⟨1, 0, 10, 5, 0, 0, 1⟩) 10 ⟨14, 6, 0, 0, 3⟩).result =
      .ok 50 := by
  rw [C9_delta_formula 1 0 10 5 0 0 1 10 ⟨14, 6, 0, 0, 3⟩ (by norm_num)]
  norm_num

/-- C7: classification evaluates the critical range first: a critical
violation yields CRITICAL with exit code 2 and is never reported as
WARNING even when the warning range is also violated; otherwise a warning
violation yields WARNING with exit code 1; otherwise the result is OK
with exit code 0, carrying the value and the warning threshold whose
valid interval the OK message explains. -/
theorem C7_critical_precedence (cpu : ℚ) (w c : NagiosThreshold) :
    (∀ v, is_outside_boundaries c cpu = some v →
      classify cpu w c = .critical v ∧ exitCode (classify cpu w c) = 2) ∧
    (is_outside_boundaries c cpu = none →
      (∀ v, is_outside_boundaries w cpu = some v →
        classify cpu w c = .warning v ∧ exitCode (classify cpu w c) = 1) ∧
      (is_outside_boundaries w cpu = none →
        classify cpu w c = .okRes cpu w ∧ exitCode (classify cpu w c) = 0)) ∧
    (∀ v v', is_outside_boundaries c cpu = some v → is_outside_boundaries w cpu = some v' →
      ∀ v2, ¬(classify cpu w c = .warning v2)) := by
  refine ⟨?_, ?_, ?_⟩
  · intro v hv
    simp [classify, hv, exitCode]
  · intro hc
    refine ⟨?_, ?_⟩
    · intro v hv
      simp [classify, hc, hv, exitCode]
    · intro hw
      simp [classify, hc, hw, exitCode]
  · intro v v' hv hv' v2
    simp [classify, hv]

/-- C5 counterexample: with the debug flag unset, a run whose sampling
succeeds but whose warning threshold text is empty (a malformed threshold
expression) escapes as an uncaught exception instead of printing a status
line and exiting 3, because the threshold constructions in the main block
are not wrapped by the UNKNOWN decorator. -/
theorem C5_uncaught_counterexample :
    main_model false false (.ok 1) true (save_to_disk ⟨1, 0, 0, 0, 0, 0, 0⟩) 10 ⟨1, 1, 0, 0, 0⟩
      "" "10" = .uncaught := by
  simp [main_model, get_pid_on_saved 1 0 0 0 0 0 0 10 ⟨1, 1, 0, 0, 0⟩, nagiosThresholdInit]

/-- C5 (amended): argument errors, PID-resolution failures and every
error inside the CPU sampler are caught and terminate with the UNKNOWN
status line and exit code 3 when the debug flag is unset, and only the
debug flag lets them propagate raw; but the wrapper does not cover the
threshold constructions of the main block, so the guarantee holds only
when both threshold texts are nonempty (the sole failing construction
input). -/
theorem C5_amended_unknown_wrapper (argErr debug : Bool) (pr : Except String ℤ)
    (isRunning : Bool) (file : FileContent) (st2 : ℚ) (pt2 : Pcputimes)
    (wRaw cRaw : String) (hw : ¬(wRaw.data = [])) (hc : ¬(cRaw.data = [])) :
    (debug = false →
      main_model argErr debug pr isRunning file st2 pt2 wRaw cRaw = .unknownExit ∨
      ∃ r, main_model argErr debug pr isRunning file st2 pt2 wRaw cRaw = .status r) ∧
    (main_model argErr debug pr isRunning file st2 pt2 wRaw cRaw = .uncaught → debug = true) := by
  have hwt : nagiosThresholdInit wRaw = some (regexParse wRaw.data) := by
    simp [nagiosThresholdInit, hw]
  have hct : nagiosThresholdInit cRaw = some (regexParse cRaw.data) := by
    simp [nagiosThresholdInit, hc]
  cases argErr with
  | true => simp [main_model]
  | false =>
    cases pr with
    | error e => cases debug <;> simp [main_model]
    | ok pid =>
      cases hres : (get_pid_cpu_percent pid isRunning file st2 pt2).result
      case ok q => simp [main_model, hres, hwt, hct]
      all_goals cases debug <;> simp [main_model, hres]

/-- C5 witness: a first-run sampler failure with valid thresholds and
debug unset terminates with the UNKNOWN exit and never escapes raw. -/
theorem C5_amended_witness :
    (false = false →
      main_model false false (.ok 1) true .missing 0 ⟨0, 0, 0, 0, 0⟩ "10" "20" = .unknownExit ∨
      ∃ r, main_model false false (.ok 1) true .missing 0 ⟨0, 0, 0, 0, 0⟩ "10" "20" = .status r) ∧
    (main_model false false (.ok 1) true .missing 0 ⟨0, 0, 0, 0, 0⟩ "10" "20" = .uncaught →
      false = true) :=
  C5_amended_unknown_wrapper false false (.ok 1) true .missing 0 ⟨0, 0, 0, 0, 0⟩ "10" "20"
    (by decide) (by decide)

/-- C10 counterexample: a stored record with all seven fields present but
a wrongly-typed pid (the string "7") deserializes without any exception;
requested against pid 7 it is classified as the pid-changed condition,
not the corrupt condition, refuting the claim that wrongly-typed fields
are always classified as corrupt and never as identity-changed. -/
theorem C10_wrongly_typed_pid_counterexample :
    (get_pid_cpu_percent 7 true (.jsonObj pidStrFields) 5 ⟨1, 1, 0, 0, 0⟩).result =
      .pidChangedError ∧
    ¬((get_pid_cpu_percent 7 true (.jsonObj pidStrFields) 5 ⟨1, 1, 0, 0, 0⟩).result =
      .corruptError) := by
  decide

/-- C10 (amended): only a missing file is classified as the first-run
condition; every exception raised while reading or deserializing — an
I/O failure such as a permission error, content that is not valid JSON,
valid JSON that is not an object, and records whose keyword construction
fails (missing or extra fields) — is classified as the corrupt
condition; but wrongly-typed field values deserialize without error, so
a wrongly-typed pid is classified as the identity-changed condition and
a wrongly-typed counter field loads as a success. -/
theorem C10_amended_load_classification :
    (∀ fc, load_from_disk fc = .fileNotFound ↔ fc = .missing) ∧
    load_from_disk .ioError = .otherError ∧
    load_from_disk .notJson = .otherError ∧
    load_from_disk .jsonNonObj = .otherError ∧
    (∀ fs, load_from_disk (.jsonObj fs) = .otherError ↔ mkFromKwargs fs = none) ∧
    load_from_disk (.jsonObj missingFieldRec) = .otherError ∧
    load_from_disk (.jsonObj extraFieldRec) = .otherError ∧
    (∃ p, load_from_disk (.jsonObj userStrFields) = .ok p) ∧
    (get_pid_cpu_percent 7 true (.jsonObj pidStrFields) 5 ⟨1, 1, 0, 0, 0⟩).result =
      .pidChangedError := by
  refine ⟨?_, rfl, rfl, rfl, ?_, by decide, by decide,
    ⟨⟨.int 7, .float 0, .str "x", .float 0, .float 0, .float 0, .float 0⟩, by decide⟩, by decide⟩
  · intro fc
    cases fc with
    | missing => simp [load_from_disk]
    | ioError => simp [load_from_disk]
    | notJson => simp [load_from_disk]
    | jsonNonObj => simp [load_from_disk]
    | jsonObj fs =>
      cases h : mkFromKwargs fs <;> simp [load_from_disk, h]
  · intro fs
    cases h : mkFromKwargs fs <;> simp [load_from_disk, h]

/-- C6: the claim states the differencing baseline is seeded field for
field from the previous sample.  The code passes
`children_system=previous.children_user` (line 292), so for a previous
record with `children_user = 1.0` and `children_system = 2.0` the seeded
baseline carries 1.0 in its `children_system` slot. -/
theorem C6_children_system_seed :
    seedPcpu ⟨.int 7, .float 0, .float 10, .float 5, .float 1, .float 2, .float 0⟩ =
      ⟨.float 10, .float 5, .float 1, .float 1, .float 0⟩ ∧
    PyCpuTuple.children_system ⟨.int 7, .float 0, .float 10, .float 5, .float 1, .float 2, .float 0⟩ =
      .float 2 :=
  ⟨rfl, rfl⟩

end CheckCpu
